import Mathlib

/-!
Verification of the DHCPv6 reply-packet construction engine of the netboot
repository (`dhcp6/packet_builder.go`).  The builder, its timer computation,
identity extraction and the hash-based set difference are embedded directly
from the source.  The option/packet data model, the option encoders and the
inbound-option accessors live in files of the repository that are not part of
the provided sources, so they are modelled from the specification (each such
definition says so in its doc comment).  Go byte slices are `List Nat` with
every element `< 256`; Go `error` values are `Option Bytes` (`none` = `nil`,
carrying the message bytes of `err.Error()`); a Go runtime panic is the
`none` of an outer `Option`.
-/

namespace Dhcp6

/-- A Go byte slice: a list of byte values. -/
abbrev Bytes := List Nat

/-! ### Message-type and option codes

Modelled from the spec: the numeric codes are fixed by the DHCPv6 standard
(spec section 6); the Go constant declarations are not among the provided
source files. -/

def MsgSolicit : Nat := 1

def MsgAdvertise : Nat := 2

def MsgRequest : Nat := 3

def MsgReply : Nat := 7

def MsgRelease : Nat := 8

def MsgInformationRequest : Nat := 11

def OptClientID : Nat := 1

def OptServerID : Nat := 2

def OptIaNa : Nat := 3

def OptIaAddr : Nat := 5

def OptPreference : Nat := 7

def OptStatusCode : Nat := 13

def OptVendorClass : Nat := 16

def OptRecursiveDNS : Nat := 23

def OptBootfileURL : Nat := 59

/-- Big-endian encoding of a 16-bit value, per the wire format of the spec. -/
def enc16 (n : Nat) : Bytes := [n / 256 % 256, n % 256]

/-- Big-endian encoding of a 32-bit value, per the wire format of the spec. -/
def enc32 (n : Nat) : Bytes :=
  [n / 16777216 % 256, n / 65536 % 256, n / 256 % 256, n % 256]

/-- Result of a successful address reservation (`dhcp6` package struct):
the echoed interface-association identifier and the assigned IPv6 address
(16 bytes). -/
structure IdentityAssociation where
  InterfaceID : Bytes
  IPAddress : Bytes
deriving DecidableEq

/-- Modelled from the spec: an option that carries a flat byte payload
(client/server identifier, status, IA-address, vendor class, boot-file URL,
preference, DNS servers).  The encoder files are not among the provided
sources; the payload layouts below follow spec section 6. -/
structure FlatOpt where
  code : Nat
  data : Bytes
deriving DecidableEq

/-- Modelled from the spec: the payload of an option is either raw bytes or
an IA-NA container (association identifier, T1, T2, one nested option). -/
inductive OptValue where
  | bytes (b : Bytes)
  | iaNa (iaid : Bytes) (t1 t2 : Nat) (inner : FlatOpt)
deriving DecidableEq

/-- Modelled from the spec: an option is a (code, payload) pair. -/
structure Opt6 where
  code : Nat
  value : OptValue
deriving DecidableEq

/-- Modelled from the spec: the options of a packet are an ordered collection
of options in which a code may repeat; insertion order is preserved (spec
section 3). -/
abbrev Options := List Opt6

/-- Modelled from the spec: `AddOption` appends at the end of the ordered
collection, so that insertion order is observable on the wire. -/
def Options.AddOption (opts : Options) (o : Opt6) : Options := opts ++ [o]

/-- Embeds a flat option into the options collection (used where the Go code
adds a status option at top level). -/
def FlatOpt.toOpt (o : FlatOpt) : Opt6 := ⟨o.code, OptValue.bytes o.data⟩

/-- Modelled from the spec: `MakeOption` wraps a code and a raw payload. -/
def MakeOption (code : Nat) (data : Bytes) : Opt6 := ⟨code, OptValue.bytes data⟩

/-- Modelled from the spec: IA-address payload = address(16) ++ preferred
lifetime(4) ++ valid lifetime(4). -/
def MakeIaAddrOption (address : Bytes) (preferredLifetime validLifetime : Nat) :
    FlatOpt :=
  ⟨OptIaAddr, address ++ enc32 preferredLifetime ++ enc32 validLifetime⟩

/-- Modelled from the spec: status payload = 2-byte numeric code followed by
the raw message bytes, no terminator. -/
def MakeStatusOption (statusCode : Nat) (message : Bytes) : FlatOpt :=
  ⟨OptStatusCode, enc16 statusCode ++ message⟩

/-- Serialization of a flat option: code(2) ++ length(2) ++ payload. -/
def serializeFlat (o : FlatOpt) : Bytes :=
  enc16 o.code ++ enc16 o.data.length ++ o.data

/-- Modelled from the spec: IA-NA container = association identifier ++
T1(4) ++ T2(4) ++ the nested option, serialized. -/
def MakeIaNaOption (iaid : Bytes) (t1 t2 : Nat) (inner : FlatOpt) : Opt6 :=
  ⟨OptIaNa, OptValue.iaNa iaid t1 t2 inner⟩

/-- Modelled from the spec: recursive-DNS payload = the 16-byte addresses
concatenated in list order. -/
def MakeDNSServersOption (dnsServers : List Bytes) : Opt6 :=
  ⟨OptRecursiveDNS, OptValue.bytes dnsServers.flatten⟩

/-- Payload bytes of an option as laid out on the wire. -/
def Opt6.payload : Opt6 → Bytes
  | ⟨_, OptValue.bytes b⟩ => b
  | ⟨_, OptValue.iaNa iaid t1 t2 inner⟩ =>
      iaid ++ enc32 t1 ++ enc32 t2 ++ serializeFlat inner

/-- Serialization of one option: code(2) ++ length(2) ++ payload. -/
def serializeOpt (o : Opt6) : Bytes :=
  enc16 o.code ++ enc16 o.payload.length ++ o.payload

/-- An outbound protocol message: type, 3-byte transaction identifier and
ordered options (spec section 3). -/
structure Packet where
  Typ : Nat
  TransactionID : Bytes
  Options : Options
deriving DecidableEq

/-- Modelled from the spec: a packet's wire form is its type, the 3-byte
transaction identifier and the options serialized in collection order. -/
def serializePacket (p : Packet) : Bytes :=
  [p.Typ] ++ p.TransactionID ++ (p.Options.map serializeOpt).flatten

/-! ### The packet builder (embedded from `dhcp6/packet_builder.go`) -/

/-- Per-instance server-wide configuration (`PacketBuilder` struct). -/
structure PacketBuilder where
  PreferredLifetime : Nat
  ValidLifetime : Nat
deriving DecidableEq

def MakePacketBuilder (preferredLifetime validLifetime : Nat) : PacketBuilder :=
  ⟨preferredLifetime, validLifetime⟩

/-- `calculateT1`: `PreferredLifetime / 2` in `uint32` arithmetic (no
overflow possible). -/
def PacketBuilder.calculateT1 (b : PacketBuilder) : Nat :=
  b.PreferredLifetime / 2

/-- `calculateT2`: `(PreferredLifetime * 4) / 5` in `uint32` arithmetic; the
multiplication wraps modulo `2^32` before the division, exactly as Go
computes it. -/
def PacketBuilder.calculateT2 (b : PacketBuilder) : Nat :=
  (b.PreferredLifetime * 4) % 4294967296 / 5

/-- 64-bit FNV-1a over the byte list, as Go's `hash/fnv` `New64a`/`Write`/
`Sum64` computes it: start from the offset basis, xor each byte then multiply
by the prime, modulo `2^64`. -/
def fnv1a64 (data : Bytes) : Nat :=
  data.foldl (fun h byte => ((h ^^^ byte) * 1099511628211) % 18446744073709551616)
    14695981039346656037

/-- `calculateIAIDHash`: FNV-1a 64-bit hash of the interface identifier. -/
def calculateIAIDHash (interfaceID : Bytes) : Nat :=
  fnv1a64 interfaceID

/-- `iasWithoutAddesses`: the requested identifiers kept in request order,
dropping each one whose hash appears among the hashes of the successfully
reserved associations (the Go code uses a `map[uint64]bool` keyed by the
hash; membership is decided by hash equality alone, with no byte-equality
tie-break). -/
def iasWithoutAddesses (availableAssociations : List IdentityAssociation)
    (allIAs : List Bytes) : List Bytes :=
  let iasWithAddresses := availableAssociations.map
    (fun association => calculateIAIDHash association.InterfaceID)
  allIAs.filter (fun ia => !(iasWithAddresses.contains (calculateIAIDHash ia)))

/-- `binary.BigEndian.Uint16` of the first two bytes of the payload: the
DUID type tag. -/
def duidTypeOf (optClientID : Bytes) : Nat :=
  256 * optClientID.headD 0 + (optClientID.drop 1).headD 0

/-- `ExtractLLAddressOrID` (a `PacketBuilder` method whose receiver is
unused): reads the 2-byte big-endian DUID type tag and strips the
type-specific header.  The Go code slices without bounds checks, so a
too-short payload panics — modelled as `none`. -/
def ExtractLLAddressOrID (optClientID : Bytes) : Option Bytes :=
  if optClientID.length < 2 then none
  else
    let idType := duidTypeOf optClientID
    if idType = 1 then
      if optClientID.length < 8 then none else some (optClientID.drop 8)
    else if idType = 3 then
      if optClientID.length < 4 then none else some (optClientID.drop 4)
    else some (optClientID.drop 2)

/-- The vendor-class payload literal from the source: 4-byte zero enterprise
number, then item length 10 and the ASCII bytes of "HTTPClient". -/
def httpClientVendorClass : Bytes :=
  [0, 0, 0, 0, 0, 10, 72, 84, 84, 80, 67, 108, 105, 101, 110, 116]

/-- The 17 ASCII bytes of the release-acknowledgement text
"Release received.". -/
def releaseReceivedMessage : Bytes :=
  [82, 101, 108, 101, 97, 115, 101, 32, 114, 101, 99, 101, 105, 118, 101, 100, 46]

def PacketBuilder.MakeMsgAdvertise (b : PacketBuilder)
    (transactionID serverDUID clientID : Bytes) (clientArchType : Nat)
    (associations : List IdentityAssociation) (bootFileURL : Bytes)
    (preference : Option Bytes) (dnsServers : List Bytes) : Packet :=
  let retOptions : Options := []
  let retOptions := retOptions.AddOption (MakeOption OptClientID clientID)
  let retOptions := associations.foldl (fun acc association =>
    acc.AddOption (MakeIaNaOption association.InterfaceID b.calculateT1 b.calculateT2
      (MakeIaAddrOption association.IPAddress b.PreferredLifetime b.ValidLifetime)))
    retOptions
  let retOptions := retOptions.AddOption (MakeOption OptServerID serverDUID)
  let retOptions := if 0x10 = clientArchType then
      retOptions.AddOption (MakeOption OptVendorClass httpClientVendorClass)
    else retOptions
  let retOptions := retOptions.AddOption (MakeOption OptBootfileURL bootFileURL)
  let retOptions := match preference with
    | some p => retOptions.AddOption (MakeOption OptPreference p)
    | none => retOptions
  let retOptions := if dnsServers.length > 0 then
      retOptions.AddOption (MakeDNSServersOption dnsServers)
    else retOptions
  { Typ := MsgAdvertise, TransactionID := transactionID, Options := retOptions }

/-- `MakeMsgReply`: the Go code evaluates `err.Error()` for every entry of
`iasWithoutAddresses`, so a non-empty list together with a `nil` error is a
nil-dereference panic, modelled as `none`. -/
def PacketBuilder.MakeMsgReply (b : PacketBuilder)
    (transactionID serverDUID clientID : Bytes) (clientArchType : Nat)
    (associations : List IdentityAssociation) (iasWithoutAddresses : List Bytes)
    (bootFileURL : Bytes) (dnsServers : List Bytes) (err : Option Bytes) :
    Option Packet :=
  if err = none ∧ iasWithoutAddresses ≠ [] then none
  else
    let retOptions : Options := []
    let retOptions := retOptions.AddOption (MakeOption OptClientID clientID)
    let retOptions := associations.foldl (fun acc association =>
      acc.AddOption (MakeIaNaOption association.InterfaceID b.calculateT1 b.calculateT2
        (MakeIaAddrOption association.IPAddress b.PreferredLifetime b.ValidLifetime)))
      retOptions
    let retOptions := iasWithoutAddresses.foldl (fun acc ia =>
      acc.AddOption (MakeIaNaOption ia b.calculateT1 b.calculateT2
        (MakeStatusOption 2 (err.getD []))))
      retOptions
    let retOptions := retOptions.AddOption (MakeOption OptServerID serverDUID)
    let retOptions := if 0x10 = clientArchType then
        retOptions.AddOption (MakeOption OptVendorClass httpClientVendorClass)
      else retOptions
    let retOptions := retOptions.AddOption (MakeOption OptBootfileURL bootFileURL)
    let retOptions := if dnsServers.length > 0 then
        retOptions.AddOption (MakeDNSServersOption dnsServers)
      else retOptions
    some { Typ := MsgReply, TransactionID := transactionID, Options := retOptions }

def PacketBuilder.MakeMsgInformationRequestReply (b : PacketBuilder)
    (transactionID serverDUID clientID : Bytes) (clientArchType : Nat)
    (bootFileURL : Bytes) (dnsServers : List Bytes) : Packet :=
  let retOptions : Options := []
  let retOptions := retOptions.AddOption (MakeOption OptClientID clientID)
  let retOptions := retOptions.AddOption (MakeOption OptServerID serverDUID)
  let retOptions := if 0x10 = clientArchType then
      retOptions.AddOption (MakeOption OptVendorClass httpClientVendorClass)
    else retOptions
  let retOptions := retOptions.AddOption (MakeOption OptBootfileURL bootFileURL)
  let retOptions := if dnsServers.length > 0 then
      retOptions.AddOption (MakeDNSServersOption dnsServers)
    else retOptions
  { Typ := MsgReply, TransactionID := transactionID, Options := retOptions }

/-- `MakeMsgReleaseReply`: the 19-byte status payload is a zero-filled
buffer with "Release received." copied at offset 2, i.e. the 2-byte success
code 0 followed by the 17 message bytes. -/
def PacketBuilder.MakeMsgReleaseReply (b : PacketBuilder)
    (transactionID serverDUID clientID : Bytes) : Packet :=
  let retOptions : Options := []
  let retOptions := retOptions.AddOption (MakeOption OptClientID clientID)
  let retOptions := retOptions.AddOption (MakeOption OptServerID serverDUID)
  let v : Bytes := [0, 0] ++ releaseReceivedMessage
  let retOptions := retOptions.AddOption (MakeOption OptStatusCode v)
  { Typ := MsgReply, TransactionID := transactionID, Options := retOptions }

/-- `MakeMsgAdvertiseWithNoAddrsAvailable` calls `err.Error()`
unconditionally, so a `nil` error would panic (`none`); the only call site
passes a non-nil error. -/
def PacketBuilder.MakeMsgAdvertiseWithNoAddrsAvailable (b : PacketBuilder)
    (transactionID serverDUID clientID : Bytes) (err : Option Bytes) :
    Option Packet :=
  match err with
  | none => none
  | some e =>
    let retOptions : Options := []
    let retOptions := retOptions.AddOption (MakeOption OptClientID clientID)
    let retOptions := retOptions.AddOption (MakeOption OptServerID serverDUID)
    let retOptions := retOptions.AddOption (MakeStatusOption 2 e).toOpt
    some { Typ := MsgAdvertise, TransactionID := transactionID, Options := retOptions }

/-! ### The dispatch (`BuildResponse`) and its collaborators -/

/-- Modelled from the spec: the inbound message together with the values its
option accessors (`ClientID()`, `ClientArchType()`, `IaNaIDs()`) return; the
inbound option parser is not among the provided sources. -/
structure InPacket where
  Typ : Nat
  TransactionID : Bytes
  ClientID : Bytes
  ClientArchType : Nat
  IaNaIDs : List Bytes
deriving DecidableEq

/-- Modelled from the spec: the boot-configuration collaborator, given by the
values its three methods return (`GetBootURL` as a Go-style
(result, error) pair). -/
structure BootConfiguration where
  GetBootURL : Bytes → Nat → Bytes × Option Bytes
  GetPreference : Option Bytes
  GetRecursiveDNS : List Bytes

/-- Modelled from the spec: the address-pool collaborator, given by the
values its two methods return. -/
structure AddressPool where
  ReserveAddresses : Bytes → List Bytes → List IdentityAssociation × Option Bytes
  ReleaseAddresses : Bytes → List Bytes → Option Bytes

/-- A collaborator invocation, recorded in the order the Go code performs
them. -/
inductive Call where
  | getBootURL
  | getPreference
  | getRecursiveDNS
  | reserveAddresses
  | releaseAddresses
deriving DecidableEq

/-- `BuildResponse`, with the trace of collaborator invocations.  The outer
`Option` is `none` exactly when the Go code panics; otherwise the value is
the (reply, error) pair the Go function returns. -/
def PacketBuilder.BuildResponseT (b : PacketBuilder) (inp : InPacket)
    (serverDUID : Bytes) (configuration : BootConfiguration)
    (addresses : AddressPool) :
    Option (Option Packet × Option Bytes) × List Call :=
  if inp.Typ = MsgSolicit then
    match ExtractLLAddressOrID inp.ClientID with
    | none => (none, [])
    | some llAddressOrID =>
      match configuration.GetBootURL llAddressOrID inp.ClientArchType with
      | (_, some e) => (some (none, some e), [Call.getBootURL])
      | (bootFileURL, none) =>
        match addresses.ReserveAddresses inp.ClientID inp.IaNaIDs with
        | (_, some e) =>
          match b.MakeMsgAdvertiseWithNoAddrsAvailable inp.TransactionID serverDUID
              inp.ClientID (some e) with
          | none => (none, [Call.getBootURL, Call.reserveAddresses])
          | some p => (some (some p, some e), [Call.getBootURL, Call.reserveAddresses])
        | (associations, none) =>
          (some (some (b.MakeMsgAdvertise inp.TransactionID serverDUID inp.ClientID
              inp.ClientArchType associations bootFileURL configuration.GetPreference
              configuration.GetRecursiveDNS), none),
           [Call.getBootURL, Call.reserveAddresses, Call.getPreference,
            Call.getRecursiveDNS])
  else if inp.Typ = MsgRequest then
    match ExtractLLAddressOrID inp.ClientID with
    | none => (none, [])
    | some llAddressOrID =>
      match configuration.GetBootURL llAddressOrID inp.ClientArchType with
      | (_, some e) => (some (none, some e), [Call.getBootURL])
      | (bootFileURL, none) =>
        match addresses.ReserveAddresses inp.ClientID inp.IaNaIDs with
        | (associations, rerr) =>
          match b.MakeMsgReply inp.TransactionID serverDUID inp.ClientID
              inp.ClientArchType associations
              (iasWithoutAddesses associations inp.IaNaIDs) bootFileURL
              configuration.GetRecursiveDNS rerr with
          | none => (none, [Call.getBootURL, Call.reserveAddresses, Call.getRecursiveDNS])
          | some p => (some (some p, rerr),
              [Call.getBootURL, Call.reserveAddresses, Call.getRecursiveDNS])
  else if inp.Typ = MsgInformationRequest then
    match ExtractLLAddressOrID inp.ClientID with
    | none => (none, [])
    | some llAddressOrID =>
      match configuration.GetBootURL llAddressOrID inp.ClientArchType with
      | (_, some e) => (some (none, some e), [Call.getBootURL])
      | (bootFileURL, none) =>
        (some (some (b.MakeMsgInformationRequestReply inp.TransactionID serverDUID
            inp.ClientID inp.ClientArchType bootFileURL configuration.GetRecursiveDNS),
          none),
         [Call.getBootURL, Call.getRecursiveDNS])
  else if inp.Typ = MsgRelease then
    (some (some (b.MakeMsgReleaseReply inp.TransactionID serverDUID inp.ClientID), none),
     [Call.releaseAddresses])
  else
    (some (none, none), [])

/-- `BuildResponse` as the Go caller sees it: the (reply, error) pair, or
`none` for a panic. -/
def PacketBuilder.BuildResponse (b : PacketBuilder) (inp : InPacket)
    (serverDUID : Bytes) (configuration : BootConfiguration)
    (addresses : AddressPool) : Option (Option Packet × Option Bytes) :=
  (b.BuildResponseT inp serverDUID configuration addresses).1

/-- The association identifier carried by an option, when it is an IA-NA
entry. -/
def optIaNaID (o : Opt6) : Option Bytes :=
  match o.value with
  | OptValue.iaNa iaid _ _ _ => some iaid
  | _ => none

/-- The association identifiers carried by the IA-NA entries of a packet, in
option order. -/
def Packet.iaNaIDs (p : Packet) : List Bytes :=
  p.Options.filterMap optIaNaID

/-- Whether a packet carries a vendor-class option. -/
def Packet.hasVendorClass (p : Packet) : Bool :=
  p.Options.any (fun o => o.code == OptVendorClass)

/-! ### Helper lemmas -/

theorem foldl_append_singleton {α β : Type} (l : List α) (f : α → β) (init : List β) :
    l.foldl (fun acc a => acc ++ [f a]) init = init ++ l.map f := by
  induction l generalizing init with
  | nil => simp
  | cons x xs ih => rw [List.foldl_cons, ih]; simp

/-- The options of a `MakeMsgReply` packet, as the explicit concatenation in
assembly order, whenever the call does not panic. -/
theorem MakeMsgReply_options (b : PacketBuilder)
    (transactionID serverDUID clientID : Bytes) (clientArchType : Nat)
    (associations : List IdentityAssociation) (ias : List Bytes)
    (bootFileURL : Bytes) (dnsServers : List Bytes) (err : Option Bytes)
    (h : ¬(err = none ∧ ias ≠ [])) :
    b.MakeMsgReply transactionID serverDUID clientID clientArchType associations ias
      bootFileURL dnsServers err =
    some ⟨MsgReply, transactionID,
      [MakeOption OptClientID clientID] ++
      associations.map (fun association =>
        MakeIaNaOption association.InterfaceID b.calculateT1 b.calculateT2
          (MakeIaAddrOption association.IPAddress b.PreferredLifetime b.ValidLifetime)) ++
      ias.map (fun ia =>
        MakeIaNaOption ia b.calculateT1 b.calculateT2
          (MakeStatusOption 2 (err.getD []))) ++
      [MakeOption OptServerID serverDUID] ++
      (if 0x10 = clientArchType then [MakeOption OptVendorClass httpClientVendorClass] else []) ++
      [MakeOption OptBootfileURL bootFileURL] ++
      (if dnsServers.length > 0 then [MakeDNSServersOption dnsServers] else [])⟩ := by
  by_cases harch : (0x10 : Nat) = clientArchType <;>
  by_cases hdns : dnsServers.length > 0 <;>
  simp [PacketBuilder.MakeMsgReply, if_neg h, harch, hdns, Options.AddOption,
    foldl_append_singleton, List.append_assoc]

/-- The options of a `MakeMsgAdvertise` packet, as the explicit concatenation
in assembly order. -/
theorem MakeMsgAdvertise_options (b : PacketBuilder)
    (transactionID serverDUID clientID : Bytes) (clientArchType : Nat)
    (associations : List IdentityAssociation) (bootFileURL : Bytes)
    (preference : Option Bytes) (dnsServers : List Bytes) :
    b.MakeMsgAdvertise transactionID serverDUID clientID clientArchType associations
      bootFileURL preference dnsServers =
    ⟨MsgAdvertise, transactionID,
      [MakeOption OptClientID clientID] ++
      associations.map (fun association =>
        MakeIaNaOption association.InterfaceID b.calculateT1 b.calculateT2
          (MakeIaAddrOption association.IPAddress b.PreferredLifetime b.ValidLifetime)) ++
      [MakeOption OptServerID serverDUID] ++
      (if 0x10 = clientArchType then [MakeOption OptVendorClass httpClientVendorClass] else []) ++
      [MakeOption OptBootfileURL bootFileURL] ++
      (match preference with
        | some p => [MakeOption OptPreference p]
        | none => []) ++
      (if dnsServers.length > 0 then [MakeDNSServersOption dnsServers] else [])⟩ := by
  by_cases harch : (0x10 : Nat) = clientArchType <;>
  rcases preference with _ | p <;>
  by_cases hdns : dnsServers.length > 0 <;>
  simp [PacketBuilder.MakeMsgAdvertise, harch, hdns, Options.AddOption,
    foldl_append_singleton, List.append_assoc]

/-- The options of a `MakeMsgInformationRequestReply` packet, as the explicit
concatenation in assembly order. -/
theorem MakeMsgInformationRequestReply_options (b : PacketBuilder)
    (transactionID serverDUID clientID : Bytes) (clientArchType : Nat)
    (bootFileURL : Bytes) (dnsServers : List Bytes) :
    b.MakeMsgInformationRequestReply transactionID serverDUID clientID clientArchType
      bootFileURL dnsServers =
    ⟨MsgReply, transactionID,
      [MakeOption OptClientID clientID, MakeOption OptServerID serverDUID] ++
      (if 0x10 = clientArchType then [MakeOption OptVendorClass httpClientVendorClass] else []) ++
      [MakeOption OptBootfileURL bootFileURL] ++
      (if dnsServers.length > 0 then [MakeDNSServersOption dnsServers] else [])⟩ := by
  by_cases harch : (0x10 : Nat) = clientArchType <;>
  by_cases hdns : dnsServers.length > 0 <;>
  simp [PacketBuilder.MakeMsgInformationRequestReply, harch, hdns, Options.AddOption,
    List.append_assoc]

@[simp] theorem optIaNaID_MakeOption (code : Nat) (data : Bytes) :
    optIaNaID (MakeOption code data) = none := rfl

@[simp] theorem optIaNaID_MakeIaNaOption (iaid : Bytes) (t1 t2 : Nat) (inner : FlatOpt) :
    optIaNaID (MakeIaNaOption iaid t1 t2 inner) = some iaid := rfl

@[simp] theorem optIaNaID_MakeDNSServersOption (dnsServers : List Bytes) :
    optIaNaID (MakeDNSServersOption dnsServers) = none := rfl

theorem filterMap_optIaNaID_map_iaNa {α : Type} (l : List α) (f : α → Opt6)
    (g : α → Bytes) (hf : ∀ a, optIaNaID (f a) = some (g a)) :
    (l.map f).filterMap optIaNaID = l.map g := by
  induction l with
  | nil => rfl
  | cons x xs ih => simp [hf, ih]

/-- Membership in the hash-based set difference: an identifier is kept iff it
is requested and its hash differs from every granted association's hash. -/
theorem mem_iasWithoutAddesses (availableAssociations : List IdentityAssociation)
    (allIAs : List Bytes) (x : Bytes) :
    x ∈ iasWithoutAddesses availableAssociations allIAs ↔
      x ∈ allIAs ∧ calculateIAIDHash x ∉ availableAssociations.map
        (fun association => calculateIAIDHash association.InterfaceID) := by
  rw [iasWithoutAddesses, List.mem_filter]
  simp [List.elem_iff]

/-- The association identifiers of a built reply are the granted ones
followed by the status-coded ones, in that order. -/
theorem MakeMsgReply_iaNaIDs (b : PacketBuilder)
    (transactionID serverDUID clientID : Bytes) (clientArchType : Nat)
    (associations : List IdentityAssociation) (ias : List Bytes)
    (bootFileURL : Bytes) (dnsServers : List Bytes) (err : Option Bytes) (p : Packet)
    (h : b.MakeMsgReply transactionID serverDUID clientID clientArchType associations ias
      bootFileURL dnsServers err = some p) :
    p.iaNaIDs = associations.map (fun a => a.InterfaceID) ++ ias := by
  by_cases hc : err = none ∧ ias ≠ []
  · rw [PacketBuilder.MakeMsgReply, if_pos hc] at h
    exact absurd h (by simp)
  · rw [MakeMsgReply_options b transactionID serverDUID clientID clientArchType
      associations ias bootFileURL dnsServers err hc] at h
    cases h
    simp only [Packet.iaNaIDs, List.filterMap_append, apply_ite (List.filterMap optIaNaID),
      filterMap_optIaNaID_map_iaNa _ _ _ (fun a => optIaNaID_MakeIaNaOption _ _ _ _),
      List.filterMap_cons, List.filterMap_nil, optIaNaID_MakeOption,
      optIaNaID_MakeDNSServersOption]
    simp [List.map_id]

/-- On the Request path with a successful boot-URL lookup, `BuildResponse` is
`MakeMsgReply` on the reservation outcome paired with the reservation error
(`none` of the outer option when the reply construction panics). -/
theorem BuildResponse_request (b : PacketBuilder) (inp : InPacket) (serverDUID : Bytes)
    (configuration : BootConfiguration) (addresses : AddressPool)
    (hty : inp.Typ = MsgRequest) (ll url : Bytes)
    (hll : ExtractLLAddressOrID inp.ClientID = some ll)
    (hurl : configuration.GetBootURL ll inp.ClientArchType = (url, none)) :
    b.BuildResponse inp serverDUID configuration addresses =
      (b.MakeMsgReply inp.TransactionID serverDUID inp.ClientID inp.ClientArchType
        (addresses.ReserveAddresses inp.ClientID inp.IaNaIDs).1
        (iasWithoutAddesses (addresses.ReserveAddresses inp.ClientID inp.IaNaIDs).1
          inp.IaNaIDs)
        url configuration.GetRecursiveDNS
        (addresses.ReserveAddresses inp.ClientID inp.IaNaIDs).2).map
      (fun p => (some p, (addresses.ReserveAddresses inp.ClientID inp.IaNaIDs).2)) := by
  unfold PacketBuilder.BuildResponse PacketBuilder.BuildResponseT
  rw [hty]
  rcases hR : addresses.ReserveAddresses inp.ClientID inp.IaNaIDs with ⟨assoc, rerr⟩
  cases hM : b.MakeMsgReply inp.TransactionID serverDUID inp.ClientID inp.ClientArchType
      assoc (iasWithoutAddesses assoc inp.IaNaIDs) url configuration.GetRecursiveDNS rerr <;>
  simp [MsgRequest, MsgSolicit, hll, hurl, hR, hM]

/-! ### Claim C3: concrete inputs (FNV-1a 64-bit collision) -/

/-- First member of a colliding pair: `fnv1a64` maps this and `collB` to the
same 64-bit value. -/
def collA : Bytes := [17, 180, 255, 78, 226, 67, 138, 153]

/-- Second member of the colliding pair. -/
def collB : Bytes := [140, 11, 34, 90, 64, 185, 189, 227]

def pbC3 : PacketBuilder := MakePacketBuilder 100 200

def inpC3 : InPacket :=
  ⟨MsgRequest, [1, 2, 3], [0, 9, 1, 2], 0, [collA, collB]⟩

def cfgC3 : BootConfiguration := ⟨fun _ _ => ([104], none), none, []⟩

/-- Grants an address only for `collA`, with a non-nil error. -/
def poolC3 : AddressPool :=
  ⟨fun _ _ => ([⟨collA, [32, 1, 13, 184, 0, 0, 0, 0, 0, 0, 0, 0, 0, 0, 0, 5]⟩],
    some [112, 111, 111, 108]), fun _ _ => none⟩

def replyC3 : Packet :=
  (pbC3.BuildResponse inpC3 [9, 9] cfgC3 poolC3).elim ⟨0, [], []⟩
    (fun r => r.1.elim ⟨0, [], []⟩ id)

/-- C3 counterexample: on a Request for the two distinct identifiers `collA`
and `collB`, whose FNV-1a 64-bit hashes collide, where the pool grants only
`collA`, the built reply drops `collB` entirely: the identifier set of the
reply is not the identifier set of the request, because membership is decided
by hash equality alone. -/
theorem C3_counterexample :
    collA ≠ collB ∧
    calculateIAIDHash collA = calculateIAIDHash collB ∧
    pbC3.BuildResponse inpC3 [9, 9] cfgC3 poolC3 =
      some (some replyC3, some [112, 111, 111, 108]) ∧
    collB ∈ inpC3.IaNaIDs ∧
    collB ∉ replyC3.iaNaIDs := by
  decide

/-- C3 (amended): on the Request path, whenever the reservation step grants a
subset of the requested interface-association identifiers and the 64-bit
FNV-1a identifier hash is collision-free across the requested identifiers,
the set of association identifiers in the reply equals exactly the set in the
request, none added, none dropped. -/
theorem C3_request_identifier_sets (b : PacketBuilder) (inp : InPacket)
    (serverDUID : Bytes) (configuration : BootConfiguration)
    (addresses : AddressPool) (p : Packet) (e : Option Bytes)
    (hty : inp.Typ = MsgRequest)
    (hsub : ∀ a ∈ (addresses.ReserveAddresses inp.ClientID inp.IaNaIDs).1,
      a.InterfaceID ∈ inp.IaNaIDs)
    (hinj : ∀ x ∈ inp.IaNaIDs, ∀ y ∈ inp.IaNaIDs,
      calculateIAIDHash x = calculateIAIDHash y → x = y)
    (hres : b.BuildResponse inp serverDUID configuration addresses = some (some p, e)) :
    ∀ x, x ∈ p.iaNaIDs ↔ x ∈ inp.IaNaIDs := by
  cases hE : ExtractLLAddressOrID inp.ClientID with
  | none =>
    rw [PacketBuilder.BuildResponse, PacketBuilder.BuildResponseT, hty] at hres
    simp [MsgRequest, MsgSolicit, hE] at hres
  | some ll =>
    rcases hB : configuration.GetBootURL ll inp.ClientArchType with ⟨url, berr⟩
    cases berr with
    | some eb =>
      rw [PacketBuilder.BuildResponse, PacketBuilder.BuildResponseT, hty] at hres
      simp [MsgRequest, MsgSolicit, hE, hB] at hres
    | none =>
      rw [BuildResponse_request b inp serverDUID configuration addresses hty ll url hE hB]
        at hres
      cases hM : b.MakeMsgReply inp.TransactionID serverDUID inp.ClientID
          inp.ClientArchType (addresses.ReserveAddresses inp.ClientID inp.IaNaIDs).1
          (iasWithoutAddesses (addresses.ReserveAddresses inp.ClientID inp.IaNaIDs).1
            inp.IaNaIDs)
          url configuration.GetRecursiveDNS
          (addresses.ReserveAddresses inp.ClientID inp.IaNaIDs).2 with
      | none =>
        rw [hM] at hres
        simp only [Option.map] at hres
        exact Option.noConfusion hres
      | some q =>
        rw [hM] at hres
        simp only [Option.map, Option.some.injEq, Prod.mk.injEq] at hres
        obtain ⟨hq, he⟩ := hres
        have hids := MakeMsgReply_iaNaIDs _ _ _ _ _ _ _ _ _ _ _ hM
        subst hq
        intro x
        rw [hids, List.mem_append]
        constructor
        · rintro (hx | hx)
          · obtain ⟨a, ha, rfl⟩ := List.mem_map.mp hx
            exact hsub a ha
          · exact ((mem_iasWithoutAddesses _ _ _).mp hx).1
        · intro hx
          by_cases hcol : calculateIAIDHash x ∈
              ((addresses.ReserveAddresses inp.ClientID inp.IaNaIDs).1).map
                (fun association => calculateIAIDHash association.InterfaceID)
          · left
            obtain ⟨a, ha, hha⟩ := List.mem_map.mp hcol
            have haid : a.InterfaceID ∈ inp.IaNaIDs := hsub a ha
            have hax : a.InterfaceID = x := hinj a.InterfaceID haid x hx hha
            exact List.mem_map.mpr ⟨a, ha, hax⟩
          · right
            exact (mem_iasWithoutAddesses _ _ _).mpr ⟨hx, hcol⟩

def pbC3w : PacketBuilder := MakePacketBuilder 100 200

def inpC3w : InPacket :=
  ⟨MsgRequest, [1, 2, 3], [0, 9, 1, 2], 0, [[0, 0, 0, 1], [0, 0, 0, 2]]⟩

def cfgC3w : BootConfiguration := ⟨fun _ _ => ([104], none), none, []⟩

def poolC3w : AddressPool :=
  ⟨fun _ _ => ([⟨[0, 0, 0, 1], [32, 1, 13, 184, 0, 0, 0, 0, 0, 0, 0, 0, 0, 0, 0, 5]⟩],
    some [102, 117, 108, 108]), fun _ _ => none⟩

def replyC3w : Packet :=
  (pbC3w.BuildResponse inpC3w [9, 9] cfgC3w poolC3w).elim ⟨0, [], []⟩
    (fun r => r.1.elim ⟨0, [], []⟩ id)

theorem C3_request_identifier_sets_witness :
    ([0, 0, 0, 2] ∈ replyC3w.iaNaIDs ↔ [0, 0, 0, 2] ∈ inpC3w.IaNaIDs) :=
  C3_request_identifier_sets pbC3w inpC3w [9, 9] cfgC3w poolC3w replyC3w
    (some [102, 117, 108, 108]) (by decide) (by decide) (by decide) (by decide)
    [0, 0, 0, 2]

/-! ### Claim C1: nil-error partial grant on the Request path -/

def pbC1 : PacketBuilder := MakePacketBuilder 3600 7200

def inpC1 : InPacket :=
  ⟨MsgRequest, [1, 2, 3], [0, 9, 1, 2], 0, [[0, 0, 0, 1]]⟩

def cfgC1 : BootConfiguration :=
  ⟨fun _ _ => ([104, 116, 116, 112], none), none, []⟩

/-- Reserves no address at all and reports no error: a strict subset of the
requested identifiers together with a nil error. -/
def poolC1 : AddressPool := ⟨fun _ _ => ([], none), fun _ _ => none⟩

/-- C1: on the Request path, when `ReserveAddresses` returns a strict subset
of the requested interface-association identifiers together with a nil
error, `BuildResponse` does NOT produce a status-coded failure entry for the
missing association: `MakeMsgReply` evaluates `err.Error()` on the nil error
and the call panics (the panic is the `none` value of the model).  This
contradicts the claimed property, which the specification states as the
intended behavior. -/
theorem C1_nil_error_partial_grant_panics :
    poolC1.ReserveAddresses inpC1.ClientID inpC1.IaNaIDs = ([], none) ∧
    iasWithoutAddesses (poolC1.ReserveAddresses inpC1.ClientID inpC1.IaNaIDs).1
      inpC1.IaNaIDs = [[0, 0, 0, 1]] ∧
    pbC1.BuildResponse inpC1 [9, 9] cfgC1 poolC1 = none := by
  decide

/-! ### Claim C2: T1/T2 computation overflows in 32-bit arithmetic -/

/-- C2: the builder computes T2 in `uint32` arithmetic, so for a preferred
lifetime near `2^32` the product `preferredLifetime * 4` wraps before the
division by 5 and `T1 <= T2` fails: with preferred and valid lifetime both
`2^32 - 1` (valid >= preferred), T1 = 2147483647 but T2 = 858993458.  This
contradicts the claimed property, which the specification states as a
requirement (arithmetic wide enough to avoid overflow before dividing). -/
theorem C2_t2_overflow :
    (MakePacketBuilder 4294967295 4294967295).PreferredLifetime ≤
      (MakePacketBuilder 4294967295 4294967295).ValidLifetime ∧
    (MakePacketBuilder 4294967295 4294967295).calculateT1 = 2147483647 ∧
    (MakePacketBuilder 4294967295 4294967295).calculateT2 = 858993458 ∧
    ¬((MakePacketBuilder 4294967295 4294967295).calculateT1 ≤
      (MakePacketBuilder 4294967295 4294967295).calculateT2) := by
  decide

/-! ### Claim C4: fixed assembly order, observable on the wire -/

/-- C4: the options of any Advertise reply appear in the fixed assembly
order (client-identifier, IA-NA entries, server-identifier, then vendor
class / boot-file URL / preference / recursive DNS when applicable); the
serialized packet concatenates the per-option serializations in exactly that
order; and a non-panicking Reply likewise carries its options in the fixed
order with the successful IA-NA entries before the failure entries. -/
theorem C4_assembly_order (b : PacketBuilder) (transactionID serverDUID clientID : Bytes)
    (clientArchType : Nat) (associations : List IdentityAssociation) (ias : List Bytes)
    (bootFileURL : Bytes) (preference : Option Bytes) (dnsServers : List Bytes)
    (e : Bytes) :
    (b.MakeMsgAdvertise transactionID serverDUID clientID clientArchType associations
        bootFileURL preference dnsServers).Options =
      [MakeOption OptClientID clientID] ++
      associations.map (fun association =>
        MakeIaNaOption association.InterfaceID b.calculateT1 b.calculateT2
          (MakeIaAddrOption association.IPAddress b.PreferredLifetime b.ValidLifetime)) ++
      [MakeOption OptServerID serverDUID] ++
      (if 0x10 = clientArchType then [MakeOption OptVendorClass httpClientVendorClass] else []) ++
      [MakeOption OptBootfileURL bootFileURL] ++
      (match preference with
        | some p => [MakeOption OptPreference p]
        | none => []) ++
      (if dnsServers.length > 0 then [MakeDNSServersOption dnsServers] else []) ∧
    serializePacket (b.MakeMsgAdvertise transactionID serverDUID clientID clientArchType
        associations bootFileURL preference dnsServers) =
      [MsgAdvertise] ++ transactionID ++
      (([MakeOption OptClientID clientID] ++
        associations.map (fun association =>
          MakeIaNaOption association.InterfaceID b.calculateT1 b.calculateT2
            (MakeIaAddrOption association.IPAddress b.PreferredLifetime b.ValidLifetime)) ++
        [MakeOption OptServerID serverDUID] ++
        (if 0x10 = clientArchType then [MakeOption OptVendorClass httpClientVendorClass] else []) ++
        [MakeOption OptBootfileURL bootFileURL] ++
        (match preference with
          | some p => [MakeOption OptPreference p]
          | none => []) ++
        (if dnsServers.length > 0 then [MakeDNSServersOption dnsServers] else [])).map
          serializeOpt).flatten ∧
    b.MakeMsgReply transactionID serverDUID clientID clientArchType associations ias
        bootFileURL dnsServers (some e) =
      some ⟨MsgReply, transactionID,
        [MakeOption OptClientID clientID] ++
        associations.map (fun association =>
          MakeIaNaOption association.InterfaceID b.calculateT1 b.calculateT2
            (MakeIaAddrOption association.IPAddress b.PreferredLifetime b.ValidLifetime)) ++
        ias.map (fun ia =>
          MakeIaNaOption ia b.calculateT1 b.calculateT2 (MakeStatusOption 2 e)) ++
        [MakeOption OptServerID serverDUID] ++
        (if 0x10 = clientArchType then [MakeOption OptVendorClass httpClientVendorClass] else []) ++
        [MakeOption OptBootfileURL bootFileURL] ++
        (if dnsServers.length > 0 then [MakeDNSServersOption dnsServers] else [])⟩ := by
  refine ⟨?_, ?_, ?_⟩
  · rw [MakeMsgAdvertise_options]
  · rw [MakeMsgAdvertise_options]
    rfl
  · rw [MakeMsgReply_options b transactionID serverDUID clientID clientArchType
      associations ias bootFileURL dnsServers (some e) (by simp)]
    simp

/-! ### Claim C5: the Release acknowledgement -/

/-- C5: every Release message yields a reply with exactly the three options
client-identifier, server-identifier and a status option whose payload is
the 2-byte success code 0 followed by the 17 ASCII bytes of
"Release received.", together with a nil error, for every address pool. -/
theorem C5_release_reply (b : PacketBuilder) (inp : InPacket) (serverDUID : Bytes)
    (configuration : BootConfiguration) (addresses : AddressPool)
    (hty : inp.Typ = MsgRelease) :
    b.BuildResponse inp serverDUID configuration addresses =
      some (some ⟨MsgReply, inp.TransactionID,
        [MakeOption OptClientID inp.ClientID,
         MakeOption OptServerID serverDUID,
         MakeOption OptStatusCode ([0, 0] ++ releaseReceivedMessage)]⟩, none) ∧
    enc16 0 = [0, 0] ∧
    releaseReceivedMessage.length = 17 ∧
    releaseReceivedMessage = (String.toList "Release received.").map Char.toNat := by
  refine ⟨?_, by decide, by decide, by decide⟩
  unfold PacketBuilder.BuildResponse PacketBuilder.BuildResponseT
  rw [hty]
  simp [MsgRelease, MsgSolicit, MsgRequest, MsgInformationRequest,
    PacketBuilder.MakeMsgReleaseReply, Options.AddOption]

def pbC5w : PacketBuilder := MakePacketBuilder 3600 7200

def inpC5w : InPacket := ⟨MsgRelease, [7, 7, 7], [0, 1, 2], 16, [[0, 0, 0, 9], [0, 0, 0, 8]]⟩

def cfgC5w : BootConfiguration := ⟨fun _ _ => ([104], none), none, []⟩

/-- An address pool whose release call reports an error. -/
def poolC5w : AddressPool := ⟨fun _ _ => ([], none), fun _ _ => some [101, 114, 114]⟩

theorem C5_release_reply_witness :
    pbC5w.BuildResponse inpC5w [3, 4] cfgC5w poolC5w =
      some (some ⟨MsgReply, inpC5w.TransactionID,
        [MakeOption OptClientID inpC5w.ClientID,
         MakeOption OptServerID [3, 4],
         MakeOption OptStatusCode ([0, 0] ++ releaseReceivedMessage)]⟩, none) ∧
    enc16 0 = [0, 0] ∧
    releaseReceivedMessage.length = 17 ∧
    releaseReceivedMessage = (String.toList "Release received.").map Char.toNat :=
  C5_release_reply pbC5w inpC5w [3, 4] cfgC5w poolC5w rfl

/-! ### Claim C6: vendor class -/

def pbC6 : PacketBuilder := MakePacketBuilder 3600 7200

/-- A Release message from a client declaring architecture type 0x10. -/
def inpC6 : InPacket := ⟨MsgRelease, [1, 1, 1], [0, 2, 3, 4], 0x10, [[0, 0, 0, 1]]⟩

def cfgC6 : BootConfiguration := ⟨fun _ _ => ([104], none), none, []⟩

def poolC6 : AddressPool := ⟨fun _ _ => ([], none), fun _ _ => none⟩

def replyC6 : Packet :=
  (pbC6.BuildResponse inpC6 [9, 9] cfgC6 poolC6).elim ⟨0, [], []⟩
    (fun r => r.1.elim ⟨0, [], []⟩ id)

/-- C6 counterexample: a Release request declaring architecture type 0x10
gets a reply with no vendor-class option, so "vendor-class present iff
architecture type = 0x10" fails for replies built on the Release path. -/
theorem C6_counterexample :
    inpC6.ClientArchType = 0x10 ∧
    pbC6.BuildResponse inpC6 [9, 9] cfgC6 poolC6 = some (some replyC6, none) ∧
    replyC6.hasVendorClass = false := by
  decide

/-- C6 (amended): Advertise, (non-panicking) Reply and information-request
replies carry a vendor-class option iff the declared architecture type is
0x10, and any vendor-class option they carry has the fixed payload (4-byte
zero enterprise number, item length 10, ASCII "HTTPClient"); the
release-acknowledgement and no-addresses-available replies never carry a
vendor-class option. -/
theorem C6_vendor_class_iff (b : PacketBuilder)
    (transactionID serverDUID clientID : Bytes) (clientArchType : Nat)
    (associations : List IdentityAssociation) (ias : List Bytes)
    (bootFileURL : Bytes) (preference : Option Bytes) (dnsServers : List Bytes)
    (e : Bytes) (p q : Packet)
    (hrep : b.MakeMsgReply transactionID serverDUID clientID clientArchType associations
      ias bootFileURL dnsServers (some e) = some p)
    (hnoaddr : b.MakeMsgAdvertiseWithNoAddrsAvailable transactionID serverDUID clientID
      (some e) = some q) :
    ((b.MakeMsgAdvertise transactionID serverDUID clientID clientArchType associations
        bootFileURL preference dnsServers).hasVendorClass =
      decide ((0x10 : Nat) = clientArchType)) ∧
    (p.hasVendorClass = decide ((0x10 : Nat) = clientArchType)) ∧
    ((b.MakeMsgInformationRequestReply transactionID serverDUID clientID clientArchType
        bootFileURL dnsServers).hasVendorClass =
      decide ((0x10 : Nat) = clientArchType)) ∧
    ((b.MakeMsgReleaseReply transactionID serverDUID clientID).hasVendorClass = false) ∧
    (q.hasVendorClass = false) ∧
    (∀ o ∈ (b.MakeMsgAdvertise transactionID serverDUID clientID clientArchType
        associations bootFileURL preference dnsServers).Options,
      o.code = OptVendorClass → o = MakeOption OptVendorClass httpClientVendorClass) ∧
    (∀ o ∈ p.Options, o.code = OptVendorClass →
      o = MakeOption OptVendorClass httpClientVendorClass) ∧
    httpClientVendorClass =
      [0, 0, 0, 0] ++ [0, 10] ++ (String.toList "HTTPClient").map Char.toNat := by
  rw [MakeMsgReply_options b transactionID serverDUID clientID clientArchType
      associations ias bootFileURL dnsServers (some e) (by simp)] at hrep
  cases hrep
  rw [PacketBuilder.MakeMsgAdvertiseWithNoAddrsAvailable] at hnoaddr
  cases hnoaddr
  refine ⟨?_, ?_, ?_, ?_, ?_, ?_, ?_, by decide⟩
  · rw [MakeMsgAdvertise_options]
    by_cases harch : (0x10 : Nat) = clientArchType <;>
    rcases preference with _ | pr <;>
    by_cases hdns : dnsServers.length > 0 <;>
    simp [Packet.hasVendorClass, harch, hdns, List.any_append, MakeIaNaOption,
      OptIaNa, MakeOption, MakeDNSServersOption, OptClientID, OptServerID,
      OptVendorClass, OptBootfileURL, OptPreference, OptRecursiveDNS]
  · by_cases harch : (0x10 : Nat) = clientArchType <;>
    by_cases hdns : dnsServers.length > 0 <;>
    simp [Packet.hasVendorClass, harch, hdns, List.any_append, MakeIaNaOption,
      OptIaNa, MakeOption, MakeDNSServersOption, OptClientID, OptServerID,
      OptVendorClass, OptBootfileURL, OptRecursiveDNS]
  · rw [MakeMsgInformationRequestReply_options]
    by_cases harch : (0x10 : Nat) = clientArchType <;>
    by_cases hdns : dnsServers.length > 0 <;>
    simp [Packet.hasVendorClass, harch, hdns, List.any_append, MakeOption,
      MakeDNSServersOption, OptClientID, OptServerID, OptVendorClass,
      OptBootfileURL, OptRecursiveDNS]
  · simp [PacketBuilder.MakeMsgReleaseReply, Options.AddOption, Packet.hasVendorClass,
      MakeOption, OptClientID, OptServerID, OptStatusCode, OptVendorClass]
  · simp [Options.AddOption, Packet.hasVendorClass, MakeOption, MakeStatusOption,
      FlatOpt.toOpt, OptClientID, OptServerID, OptStatusCode, OptVendorClass]
  · intro o ho hc
    rw [MakeMsgAdvertise_options] at ho
    simp only [List.mem_append, List.mem_singleton, List.mem_map] at ho
    rcases ho with ((((((rfl | ⟨a, ha, rfl⟩) | rfl) | hv) | rfl) | hpr) | hd)
    · simp [MakeOption, OptClientID, OptVendorClass] at hc
    · simp [MakeIaNaOption, OptIaNa, OptVendorClass] at hc
    · simp [MakeOption, OptServerID, OptVendorClass] at hc
    · split at hv <;> simp at hv
      rw [hv]
    · simp [MakeOption, OptBootfileURL, OptVendorClass] at hc
    · rcases preference with _ | pr <;> simp at hpr <;> rw [hpr] at hc <;>
        simp [MakeOption, OptPreference, OptVendorClass] at hc
    · split at hd <;> simp at hd
      rw [hd] at hc
      simp [MakeDNSServersOption, OptRecursiveDNS, OptVendorClass] at hc
  · intro o ho hc
    simp only [List.mem_append, List.mem_singleton, List.mem_map] at ho
    rcases ho with ((((((rfl | ⟨a, ha, rfl⟩) | ⟨ia, hia, rfl⟩) | rfl) | hv) | rfl) | hd)
    · simp [MakeOption, OptClientID, OptVendorClass] at hc
    · simp [MakeIaNaOption, OptIaNa, OptVendorClass] at hc
    · simp [MakeIaNaOption, OptIaNa, OptVendorClass] at hc
    · simp [MakeOption, OptServerID, OptVendorClass] at hc
    · split at hv <;> simp at hv
      rw [hv]
    · simp [MakeOption, OptBootfileURL, OptVendorClass] at hc
    · split at hd <;> simp at hd
      rw [hd] at hc
      simp [MakeDNSServersOption, OptRecursiveDNS, OptVendorClass] at hc

def pbC6w : PacketBuilder := MakePacketBuilder 10 20

def pC6w : Packet :=
  (pbC6w.MakeMsgReply [1, 1, 1] [2] [3] 0x10 [] [[0, 0, 0, 7]] [104] []
    (some [101])).elim ⟨0, [], []⟩ id

def qC6w : Packet :=
  (pbC6w.MakeMsgAdvertiseWithNoAddrsAvailable [1, 1, 1] [2] [3]
    (some [101])).elim ⟨0, [], []⟩ id

theorem C6_vendor_class_iff_witness :
    ((pbC6w.MakeMsgAdvertise [1, 1, 1] [2] [3] 0x10 [] [104] none []).hasVendorClass =
      decide ((0x10 : Nat) = 0x10)) ∧
    (pC6w.hasVendorClass = decide ((0x10 : Nat) = 0x10)) ∧
    ((pbC6w.MakeMsgReleaseReply [1, 1, 1] [2] [3]).hasVendorClass = false) ∧
    (qC6w.hasVendorClass = false) :=
  ⟨(C6_vendor_class_iff pbC6w [1, 1, 1] [2] [3] 0x10 [] [[0, 0, 0, 7]] [104] none []
      [101] pC6w qC6w (by decide) (by decide)).1,
   (C6_vendor_class_iff pbC6w [1, 1, 1] [2] [3] 0x10 [] [[0, 0, 0, 7]] [104] none []
      [101] pC6w qC6w (by decide) (by decide)).2.1,
   (C6_vendor_class_iff pbC6w [1, 1, 1] [2] [3] 0x10 [] [[0, 0, 0, 7]] [104] none []
      [101] pC6w qC6w (by decide) (by decide)).2.2.2.1,
   (C6_vendor_class_iff pbC6w [1, 1, 1] [2] [3] 0x10 [] [[0, 0, 0, 7]] [104] none []
      [101] pC6w qC6w (by decide) (by decide)).2.2.2.2.1⟩

/-! ### Claim C7: boot-configuration lookup failure aborts the request -/

/-- C7: whenever the boot-configuration lookup reports an error on a
Solicit, Request or InformationRequest, `BuildResponse` returns no packet
together with exactly that error: the lookup failure is never translated
into a protocol reply. -/
theorem C7_lookup_failure_aborts (b : PacketBuilder) (inp : InPacket)
    (serverDUID ll url e : Bytes) (configuration : BootConfiguration)
    (addresses : AddressPool)
    (hty : inp.Typ = MsgSolicit ∨ inp.Typ = MsgRequest ∨
      inp.Typ = MsgInformationRequest)
    (hll : ExtractLLAddressOrID inp.ClientID = some ll)
    (hurl : configuration.GetBootURL ll inp.ClientArchType = (url, some e)) :
    b.BuildResponse inp serverDUID configuration addresses = some (none, some e) := by
  unfold PacketBuilder.BuildResponse PacketBuilder.BuildResponseT
  rcases hty with hty | hty | hty <;> rw [hty] <;>
    simp [MsgSolicit, MsgRequest, MsgInformationRequest, hll, hurl]

def inpC7w : InPacket := ⟨MsgSolicit, [1, 2, 3], [0, 9, 4, 5], 7, [[0, 0, 0, 1]]⟩

/-- A boot configuration whose lookup always fails. -/
def cfgC7w : BootConfiguration :=
  ⟨fun _ _ => ([], some [110, 111, 32, 117, 114, 108]), none, []⟩

def poolC7w : AddressPool := ⟨fun _ _ => ([], none), fun _ _ => none⟩

theorem C7_lookup_failure_aborts_witness :
    (MakePacketBuilder 1 2).BuildResponse inpC7w [9] cfgC7w poolC7w =
      some (none, some [110, 111, 32, 117, 114, 108]) :=
  C7_lookup_failure_aborts (MakePacketBuilder 1 2) inpC7w [9] [4, 5] []
    [110, 111, 32, 117, 114, 108] cfgC7w poolC7w (Or.inl rfl) (by decide) (by decide)

/-! ### Claim C8: unrecognized message types are a silent no-op -/

/-- C8: for every inbound type other than Solicit, Request,
InformationRequest and Release, `BuildResponse` returns `(nil, nil)` and
invokes no collaborator at all (the invocation trace is empty). -/
theorem C8_unknown_type_noop (b : PacketBuilder) (inp : InPacket) (serverDUID : Bytes)
    (configuration : BootConfiguration) (addresses : AddressPool)
    (h1 : inp.Typ ≠ MsgSolicit) (h2 : inp.Typ ≠ MsgRequest)
    (h3 : inp.Typ ≠ MsgInformationRequest) (h4 : inp.Typ ≠ MsgRelease) :
    b.BuildResponseT inp serverDUID configuration addresses = (some (none, none), []) := by
  unfold PacketBuilder.BuildResponseT
  simp [h1, h2, h3, h4]

/-- A Renew message (type 5), which the builder does not recognize. -/
def inpC8w : InPacket := ⟨5, [1, 2, 3], [0, 9, 4, 5], 7, [[0, 0, 0, 1]]⟩

def cfgC8w : BootConfiguration := ⟨fun _ _ => ([104], none), some [0], [[0]]⟩

def poolC8w : AddressPool := ⟨fun _ _ => ([], some [101]), fun _ _ => some [101]⟩

theorem C8_unknown_type_noop_witness :
    (MakePacketBuilder 1 2).BuildResponseT inpC8w [9] cfgC8w poolC8w =
      (some (none, none), []) :=
  C8_unknown_type_noop (MakePacketBuilder 1 2) inpC8w [9] cfgC8w poolC8w
    (by decide) (by decide) (by decide) (by decide)

/-! ### Claim C9: identity extraction per DUID type -/

/-- C9: for a client-identifier payload of length at least 2, extraction
strips the first 8 bytes when the big-endian type tag is 1 (and the length
is at least 8), the first 4 bytes when the tag is 3 (length at least 4), and
only the 2-byte tag for every other type value. -/
theorem C9_extract_lladdr (optClientID : Bytes) (h2 : 2 ≤ optClientID.length) :
    (duidTypeOf optClientID = 1 →
      8 ≤ optClientID.length →
      ExtractLLAddressOrID optClientID = some (optClientID.drop 8)) ∧
    (duidTypeOf optClientID = 3 →
      4 ≤ optClientID.length →
      ExtractLLAddressOrID optClientID = some (optClientID.drop 4)) ∧
    (duidTypeOf optClientID ≠ 1 →
      duidTypeOf optClientID ≠ 3 →
      ExtractLLAddressOrID optClientID = some (optClientID.drop 2)) := by
  have h2n : ¬ optClientID.length < 2 := by omega
  refine ⟨?_, ?_, ?_⟩
  · intro hT h8
    have h8n : ¬ optClientID.length < 8 := by omega
    simp [ExtractLLAddressOrID, h2n, hT, h8n]
  · intro hT h4
    have h4n : ¬ optClientID.length < 4 := by omega
    simp [ExtractLLAddressOrID, h2n, hT, h4n]
  · intro hT1 hT3
    simp [ExtractLLAddressOrID, h2n, hT1, hT3]

theorem C9_extract_lladdr_witness :
    ExtractLLAddressOrID [0, 1, 10, 11, 12, 13, 14, 15, 16] = some [16] ∧
    ExtractLLAddressOrID [0, 3, 10, 11, 12] = some [12] ∧
    ExtractLLAddressOrID [0, 9, 10, 11] = some [10, 11] :=
  ⟨(C9_extract_lladdr [0, 1, 10, 11, 12, 13, 14, 15, 16] (by decide)).1
      (by decide) (by decide),
   (C9_extract_lladdr [0, 3, 10, 11, 12] (by decide)).2.1 (by decide) (by decide),
   (C9_extract_lladdr [0, 9, 10, 11] (by decide)).2.2 (by decide) (by decide)⟩

/-! ### Claim C10: extraction is partial over malformed identifiers -/

/-- C10: extraction panics (`none`) on a payload shorter than 2 bytes, a
type-1 payload shorter than 8 bytes and a type-3 payload shorter than 4
bytes; on the Solicit, Request and InformationRequest paths such a panic
propagates out of `BuildResponse` (the whole call is the panic value `none`,
not an error return and not a nil reply). -/
theorem C10_extract_panics (optClientID : Bytes) (b : PacketBuilder) (inp : InPacket)
    (serverDUID : Bytes) (configuration : BootConfiguration)
    (addresses : AddressPool) :
    (optClientID.length < 2 → ExtractLLAddressOrID optClientID = none) ∧
    (duidTypeOf optClientID = 1 →
      optClientID.length < 8 → ExtractLLAddressOrID optClientID = none) ∧
    (duidTypeOf optClientID = 3 →
      optClientID.length < 4 → ExtractLLAddressOrID optClientID = none) ∧
    ((inp.Typ = MsgSolicit ∨ inp.Typ = MsgRequest ∨
        inp.Typ = MsgInformationRequest) →
      ExtractLLAddressOrID inp.ClientID = none →
      b.BuildResponse inp serverDUID configuration addresses = none) := by
  refine ⟨?_, ?_, ?_, ?_⟩
  · intro hlt
    simp [ExtractLLAddressOrID, hlt]
  · intro hT h8
    by_cases hl2 : optClientID.length < 2
    · simp [ExtractLLAddressOrID, hl2]
    · simp [ExtractLLAddressOrID, hl2, hT, h8]
  · intro hT h4
    by_cases hl2 : optClientID.length < 2
    · simp [ExtractLLAddressOrID, hl2]
    · simp [ExtractLLAddressOrID, hl2, hT, h4]
  · intro hty hE
    unfold PacketBuilder.BuildResponse PacketBuilder.BuildResponseT
    rcases hty with hty | hty | hty <;> rw [hty] <;>
      simp [MsgSolicit, MsgRequest, MsgInformationRequest, hE]

/-- An InformationRequest carrying a truncated (1-byte) client identifier. -/
def inpC10w : InPacket := ⟨MsgInformationRequest, [1, 2, 3], [0], 7, []⟩

def cfgC10w : BootConfiguration := ⟨fun _ _ => ([104], none), none, []⟩

def poolC10w : AddressPool := ⟨fun _ _ => ([], none), fun _ _ => none⟩

theorem C10_extract_panics_witness :
    ExtractLLAddressOrID [5] = none ∧
    ExtractLLAddressOrID [0, 1, 9] = none ∧
    ExtractLLAddressOrID [0, 3, 9] = none ∧
    (MakePacketBuilder 1 2).BuildResponse inpC10w [9] cfgC10w poolC10w = none :=
  ⟨(C10_extract_panics [5] (MakePacketBuilder 1 2) inpC10w [9] cfgC10w poolC10w).1
      (by decide),
   (C10_extract_panics [0, 1, 9] (MakePacketBuilder 1 2) inpC10w [9] cfgC10w
      poolC10w).2.1 (by decide) (by decide),
   (C10_extract_panics [0, 3, 9] (MakePacketBuilder 1 2) inpC10w [9] cfgC10w
      poolC10w).2.2.1 (by decide) (by decide),
   (C10_extract_panics [0] (MakePacketBuilder 1 2) inpC10w [9] cfgC10w
      poolC10w).2.2.2 (Or.inr (Or.inr rfl)) (by decide)⟩

end Dhcp6

